import Mathlib

/-!
Shallow embedding of the RHCSA examination platform frontend
(frontend/types.ts, frontend/constants.tsx, frontend/App.tsx,
frontend/services/dockerService.ts, frontend/components/Terminal.tsx),
together with the checker-engine aggregation contract of the backend,
and proofs of the specification's claims about it.
-/

namespace RhcsaLab

/-- Lifecycle status of a task, from `enum TaskStatus` in frontend/types.ts
(idle, running, stopped, starting). -/
inductive TaskStatus where
  | idle
  | running
  | stopped
  | starting
deriving DecidableEq, Repr

/-- Node group of a task, from `enum NodeGroup` in frontend/types.ts. -/
inductive NodeGroup where
  | NODE1
  | NODE2
deriving DecidableEq, Repr

/-- Status of a check result, from the union type
`'PASS' | 'FAIL' | 'ERROR'` in frontend/types.ts. -/
inductive CheckStatus where
  | PASS
  | FAIL
  | ERROR
deriving DecidableEq, Repr

/-- One probe's outcome, from `interface CheckDetail` in frontend/types.ts. -/
structure CheckDetail where
  name : String
  passed : Bool
  message : String
deriving DecidableEq, Repr

/-- Aggregated result of one check run, from `interface CheckResult` in
frontend/types.ts. -/
structure CheckResult where
  status : CheckStatus
  summary : String
  details : List CheckDetail
  timestamp : String
deriving DecidableEq, Repr

/-- One exercise record, from `interface Task` in frontend/types.ts. -/
structure Task where
  id : Nat
  node : NodeGroup
  title : String
  instructions : String
  status : TaskStatus
  lastCheck : Option CheckResult
deriving DecidableEq, Repr

/-- The exercise catalog, from `INITIAL_TASKS` in frontend/constants.tsx:
the 20 exercise records, declared once as a constant. -/
def INITIAL_TASKS : List Task := [
  { id := 1, node := NodeGroup.NODE1, title := "Network Configuration",
    instructions := "Configure the network interface with IP address 192.168.122.10/24, gateway 192.168.122.1, and DNS 8.8.8.8. Set hostname to node1.example.com.",
    status := TaskStatus.idle, lastCheck := none },
  { id := 2, node := NodeGroup.NODE1, title := "BaseOS/AppStream Repos",
    instructions := "Configure local yum repositories for BaseOS and AppStream. Use /mnt/BaseOS and /mnt/AppStream as sources.",
    status := TaskStatus.idle, lastCheck := none },
  { id := 3, node := NodeGroup.NODE1, title := "SELinux Web Port",
    instructions := "Configure the Apache web server to run on port 82. Ensure SELinux allows this port.",
    status := TaskStatus.idle, lastCheck := none },
  { id := 4, node := NodeGroup.NODE1, title := "Users & Group Creation",
    instructions := "Create a group named 'sysadmin'. Create users 'alice' and 'bob', and add them to the 'sysadmin' group.",
    status := TaskStatus.idle, lastCheck := none },
  { id := 5, node := NodeGroup.NODE1, title := "Shared Directory",
    instructions := "Create a directory /home/shared. Ensure it is owned by the group 'sysadmin' and has g+rwx permissions. Implement setgid.",
    status := TaskStatus.idle, lastCheck := none },
  { id := 6, node := NodeGroup.NODE1, title := "autofs NFS",
    instructions := "Configure autofs to automatically mount an NFS export from server.example.com:/export/home to /rhome/remote_user.",
    status := TaskStatus.idle, lastCheck := none },
  { id := 7, node := NodeGroup.NODE1, title := "Cron Job",
    instructions := "Create a cron job for user 'alice' that runs 'logger \"Hello World\"' every day at 14:23.",
    status := TaskStatus.idle, lastCheck := none },
  { id := 8, node := NodeGroup.NODE1, title := "NTP Client",
    instructions := "Configure chronyd to sync with pool.ntp.org.",
    status := TaskStatus.idle, lastCheck := none },
  { id := 9, node := NodeGroup.NODE1, title := "Find Files by Owner",
    instructions := "Find all files owned by user 'alice' in /etc and copy them to /root/alice_files/.",
    status := TaskStatus.idle, lastCheck := none },
  { id := 10, node := NodeGroup.NODE1, title := "Find Strings",
    instructions := "Search for all lines containing 'rhcsa' in /usr/share/dict/words and save them to /root/lines.txt.",
    status := TaskStatus.idle, lastCheck := none },
  { id := 11, node := NodeGroup.NODE1, title := "User with UID",
    instructions := "Create a user 'charlie' with UID 2000.",
    status := TaskStatus.idle, lastCheck := none },
  { id := 12, node := NodeGroup.NODE1, title := "Archive Creation",
    instructions := "Create a bzip2 compressed tar archive of /etc named /root/etc.tar.bz2.",
    status := TaskStatus.idle, lastCheck := none },
  { id := 13, node := NodeGroup.NODE1, title := "Container Service",
    instructions := "Run a podman container using the 'nginx' image and configure it as a systemd user service for user 'alice'.",
    status := TaskStatus.idle, lastCheck := none },
  { id := 14, node := NodeGroup.NODE1, title := "Default Permissions",
    instructions := "Set the umask for all new users to 007.",
    status := TaskStatus.idle, lastCheck := none },
  { id := 15, node := NodeGroup.NODE2, title := "Root Password",
    instructions := "Reset the root password to 'redhat'.",
    status := TaskStatus.idle, lastCheck := none },
  { id := 16, node := NodeGroup.NODE2, title := "Repositories",
    instructions := "Configure YUM repositories for NODE2 using the provided URL.",
    status := TaskStatus.idle, lastCheck := none },
  { id := 17, node := NodeGroup.NODE2, title := "Resize LV",
    instructions := "Resize the logical volume 'vo' to 300MB without losing data.",
    status := TaskStatus.idle, lastCheck := none },
  { id := 18, node := NodeGroup.NODE2, title := "Swap Creation",
    instructions := "Add a 512MB swap partition to the system and ensure it persists across reboots.",
    status := TaskStatus.idle, lastCheck := none },
  { id := 19, node := NodeGroup.NODE2, title := "Create LV",
    instructions := "Create a logical volume named 'data' in volume group 'vg0' with a size of 10 extents.",
    status := TaskStatus.idle, lastCheck := none },
  { id := 20, node := NodeGroup.NODE2, title := "tuned profile",
    instructions := "Set the system tuned profile to 'virtual-guest'.",
    status := TaskStatus.idle, lastCheck := none }
]

/-- C2: the exercise catalog declared in frontend/constants.tsx contains
exactly 20 records; their ids are, in order, 1..20 (hence one record per
id, ids unique and drawn from 1..20); and every record's group is NODE1
or NODE2. The catalog is a single constant, never reassigned. -/
theorem catalog_twenty_unique_ids_grouped :
    INITIAL_TASKS.length = 20 ∧
    INITIAL_TASKS.map (fun t => t.id) = List.range' 1 20 ∧
    (INITIAL_TASKS.map (fun t => t.id)).Nodup ∧
    INITIAL_TASKS.all
      (fun t => t.node = NodeGroup.NODE1 ∨ t.node = NodeGroup.NODE2) = true := by
  refine ⟨rfl, by decide, by decide, by decide⟩

/-- The four per-task actions of `handleTaskAction` in frontend/App.tsx
(the string union `'start' | 'stop' | 'reset' | 'check'`). -/
inductive TaskAction where
  | start
  | stop
  | reset
  | check
deriving DecidableEq, Repr

/-- Outcome of the awaited dockerService call inside `handleTaskAction`:
a lifecycle call (startContainer/stopContainer/resetContainer) resolves
with a Bool, checkTask resolves with a CheckResult, and any awaited call
may throw (handled by the catch block of App.tsx lines 116-119). -/
inductive CallOutcome where
  | resolvedBool (b : Bool)
  | resolvedCheck (r : CheckResult)
  | threw
deriving DecidableEq, Repr

/-- The pair (newStatus, checkResult) after the try/catch of
`handleTaskAction` (App.tsx lines 92-119): `newStatus` is initialized to
IDLE and `checkResult` to null; start and reset set RUNNING on success and
IDLE on failure, stop sets STOPPED, check sets RUNNING and the received
result; a thrown call leaves both at their initial values. -/
def runAction : TaskAction → CallOutcome → TaskStatus × Option CheckResult
  | TaskAction.start, CallOutcome.resolvedBool b =>
      (if b then TaskStatus.running else TaskStatus.idle, none)
  | TaskAction.stop, CallOutcome.resolvedBool _ => (TaskStatus.stopped, none)
  | TaskAction.reset, CallOutcome.resolvedBool b =>
      (if b then TaskStatus.running else TaskStatus.idle, none)
  | TaskAction.check, CallOutcome.resolvedCheck r => (TaskStatus.running, some r)
  | _, _ => (TaskStatus.idle, none)

/-- The first setTasks call of `handleTaskAction` (App.tsx lines 88-90):
the acted-on task's status becomes STARTING (the loading state), every
other task is unchanged. -/
def setStarting (taskId : Nat) (tasks : List Task) : List Task :=
  tasks.map fun t =>
    if t.id = taskId then { t with status := TaskStatus.starting } else t

/-- The final setTasks call of `handleTaskAction` (App.tsx lines 121-127):
the acted-on task gets the new status, and its lastCheck becomes
checkResult when that is non-null and keeps its old value otherwise
(`checkResult || t.lastCheck`); every other task is unchanged. -/
def applyOutcome (taskId : Nat) (newStatus : TaskStatus)
    (checkResult : Option CheckResult) (tasks : List Task) : List Task :=
  tasks.map fun t =>
    if t.id = taskId then
      { t with
        status := newStatus,
        lastCheck := match checkResult with
          | some r => some r
          | none => t.lastCheck }
    else t

/-- One run of `handleTaskAction` (App.tsx lines 80-128), observed as: the
sequence of task lists made visible by its setTasks calls (in order),
the final task list, whether any dockerService request was issued, and
whether the terminal was cleared. -/
structure ActionRun where
  states : List (List Task)
  final : List Task
  requested : Bool
  clearedTerminal : Bool
deriving DecidableEq, Repr

/-- `handleTaskAction` of App.tsx: returns immediately when the docker
daemon is not reported available (line 81), otherwise clears the terminal
for start/stop/reset (lines 83-85), publishes the STARTING state, issues
the service call, and publishes the final state computed by `runAction`. -/
def handleTaskAction (dockerAvailable : Bool) (taskId : Nat)
    (action : TaskAction) (outcome : CallOutcome) (tasks : List Task) : ActionRun :=
  if dockerAvailable then
    let s1 := setStarting taskId tasks
    let res := runAction action outcome
    let s2 := applyOutcome taskId res.1 res.2 s1
    { states := [s1, s2], final := s2, requested := true,
      clearedTerminal :=
        match action with
        | TaskAction.check => false
        | _ => true }
  else
    { states := [], final := tasks, requested := false, clearedTerminal := false }

/-- Helper: `setStarting` does not change any task's lastCheck. -/
theorem setStarting_map_lastCheck (taskId : Nat) (ts : List Task) :
    (setStarting taskId ts).map (fun t => t.lastCheck)
      = ts.map (fun t => t.lastCheck) := by
  unfold setStarting
  rw [List.map_map]
  apply List.map_congr_left
  intro t _
  by_cases h : t.id = taskId <;> simp [h]

/-- Helper: `applyOutcome` with a null checkResult does not change any
task's lastCheck. -/
theorem applyOutcome_none_map_lastCheck (taskId : Nat) (ns : TaskStatus)
    (ts : List Task) :
    (applyOutcome taskId ns none ts).map (fun t => t.lastCheck)
      = ts.map (fun t => t.lastCheck) := by
  unfold applyOutcome
  rw [List.map_map]
  apply List.map_congr_left
  intro t _
  by_cases h : t.id = taskId <;> simp [h]

/-- Helper: for a non-check action the try/catch leaves checkResult null. -/
theorem runAction_snd_eq_none (action : TaskAction) (o : CallOutcome)
    (h : action ≠ TaskAction.check) : (runAction action o).2 = none := by
  cases action with
  | check => exact absurd rfl h
  | start => cases o <;> simp [runAction]
  | stop => cases o <;> simp [runAction]
  | reset => cases o <;> simp [runAction]

/-- C9: a lifecycle operation (start, stop or reset) never modifies any
task's lastCheck, whether the service call succeeds, reports failure or
throws: the lastCheck column after `handleTaskAction` equals the one
before it. Only the check action can carry a non-null checkResult into
the final setTasks call. -/
theorem lifecycle_preserves_lastCheck (a : Bool) (taskId : Nat)
    (action : TaskAction) (o : CallOutcome) (tasks : List Task)
    (h : action ≠ TaskAction.check) :
    (handleTaskAction a taskId action o tasks).final.map (fun t => t.lastCheck)
      = tasks.map (fun t => t.lastCheck) := by
  cases a with
  | false => simp [handleTaskAction]
  | true =>
    show (applyOutcome taskId (runAction action o).1 (runAction action o).2
        (setStarting taskId tasks)).map (fun t => t.lastCheck)
      = tasks.map (fun t => t.lastCheck)
    rw [runAction_snd_eq_none action o h, applyOutcome_none_map_lastCheck,
      setStarting_map_lastCheck]

/-- Concrete task list used by the witness theorems. -/
def witTasks : List Task :=
  [{ id := 1, node := NodeGroup.NODE1, title := "Network Configuration",
     instructions := "", status := TaskStatus.running,
     lastCheck := some { status := CheckStatus.PASS, summary := "2/2 checks passed.",
                         details := [], timestamp := "2026-02-01T09:33:08+00:00" } },
   { id := 2, node := NodeGroup.NODE1, title := "BaseOS/AppStream Repos",
     instructions := "", status := TaskStatus.idle, lastCheck := none }]

/-- Witness for C9: a concrete stop call on task 1 of `witTasks` leaves
both tasks' lastCheck exactly as they were. -/
theorem lifecycle_preserves_lastCheck_witness :
    TaskAction.stop ≠ TaskAction.check ∧
    (handleTaskAction true 1 TaskAction.stop (CallOutcome.resolvedBool true)
        witTasks).final.map (fun t => t.lastCheck)
      = witTasks.map (fun t => t.lastCheck) :=
  ⟨by decide,
   lifecycle_preserves_lastCheck true 1 TaskAction.stop
     (CallOutcome.resolvedBool true) witTasks (by decide)⟩

/-- C8: when the docker daemon is reported unreachable, `handleTaskAction`
is a no-op for every task id, action and would-be outcome: no task-list
state is published, the task list is unchanged, no dockerService request
is issued and the terminal is not cleared. -/
theorem engine_unavailable_noop (taskId : Nat) (action : TaskAction)
    (outcome : CallOutcome) (tasks : List Task) :
    handleTaskAction false taskId action outcome tasks
      = { states := [], final := tasks, requested := false,
          clearedTerminal := false } := by
  rfl

/-- Helper: in the output of `applyOutcome`, a task carrying the acted-on
id has the new status. -/
theorem applyOutcome_status_of_mem (taskId : Nat) (ns : TaskStatus)
    (cr : Option CheckResult) (ts : List Task) (t : Task)
    (ht : t ∈ applyOutcome taskId ns cr ts) (hid : t.id = taskId) :
    t.status = ns := by
  simp only [applyOutcome, List.mem_map] at ht
  obtain ⟨u, _, rfl⟩ := ht
  by_cases h : u.id = taskId
  · simp [h]
  · simp only [if_neg h] at hid ⊢
    exact absurd hid h

/-- Helper: in the output of `applyOutcome` with a non-null checkResult, a
task carrying the acted-on id has that checkResult as its lastCheck. -/
theorem applyOutcome_lastCheck_of_mem (taskId : Nat) (ns : TaskStatus)
    (r : CheckResult) (ts : List Task) (t : Task)
    (ht : t ∈ applyOutcome taskId ns (some r) ts) (hid : t.id = taskId) :
    t.lastCheck = some r := by
  simp only [applyOutcome, List.mem_map] at ht
  obtain ⟨u, _, rfl⟩ := ht
  by_cases h : u.id = taskId
  · simp [h]
  · simp only [if_neg h] at hid ⊢
    exact absurd hid h

/-- Helper: in the output of `setStarting`, a task carrying the acted-on id
has status STARTING. -/
theorem setStarting_status_of_mem (taskId : Nat) (ts : List Task) (t : Task)
    (ht : t ∈ setStarting taskId ts) (hid : t.id = taskId) :
    t.status = TaskStatus.starting := by
  simp only [setStarting, List.mem_map] at ht
  obtain ⟨u, _, rfl⟩ := ht
  by_cases h : u.id = taskId
  · simp [h]
  · simp only [if_neg h] at hid ⊢
    exact absurd hid h

/-- C3 amended: a check whose service call resolves with result `r`
publishes exactly two task-list states; in the final one the checked task
has `r` as its new lastCheck and status Running, but in the intermediate
one — published before the call — its status is the transient loading
state Starting, not Running. -/
theorem check_replaces_lastCheck_with_transient_starting (taskId : Nat)
    (r : CheckResult) (tasks : List Task) :
    ((handleTaskAction true taskId TaskAction.check
        (CallOutcome.resolvedCheck r) tasks).states
      = [setStarting taskId tasks,
         (handleTaskAction true taskId TaskAction.check
           (CallOutcome.resolvedCheck r) tasks).final]) ∧
    (∀ t ∈ (handleTaskAction true taskId TaskAction.check
        (CallOutcome.resolvedCheck r) tasks).final,
      t.id = taskId → t.status = TaskStatus.running ∧ t.lastCheck = some r) ∧
    (∀ t ∈ setStarting taskId tasks,
      t.id = taskId → t.status = TaskStatus.starting) := by
  refine ⟨rfl, ?_, ?_⟩
  · intro t ht hid
    have ht' : t ∈ applyOutcome taskId TaskStatus.running (some r)
        (setStarting taskId tasks) := ht
    exact ⟨applyOutcome_status_of_mem _ _ _ _ _ ht' hid,
           applyOutcome_lastCheck_of_mem _ _ _ _ _ ht' hid⟩
  · intro t ht hid
    exact setStarting_status_of_mem _ _ _ ht hid

/-- Concrete running task used by the C3 counterexample. -/
def checkCexTask : Task :=
  { id := 1, node := NodeGroup.NODE1, title := "Network Configuration",
    instructions := "", status := TaskStatus.running, lastCheck := none }

/-- Concrete check result used by concrete instances. -/
def sampleResult : CheckResult :=
  { status := CheckStatus.FAIL, summary := "1/2 checks passed.",
    details := [{ name := "Hostname", passed := true,
                  message := "Hostname is correct" },
                { name := "IP configuration", passed := false,
                  message := "IP address not configured" }],
    timestamp := "2026-02-01T09:33:08+00:00" }

/-- C3 counterexample: checking task 1 — whose status is Running — does NOT
keep its status Running at every published point of the operation: the
intermediate state published by handleTaskAction carries status Starting. -/
theorem check_not_running_throughout_cex :
    ¬ (∀ s ∈ (handleTaskAction true 1 TaskAction.check
          (CallOutcome.resolvedCheck sampleResult) [checkCexTask]).states,
        ∀ t ∈ s, t.id = 1 → t.status = TaskStatus.running) := by
  decide

/-- Witness for C3: for the concrete running task 1, a resolved check ends
with status Running and the new result as lastCheck. -/
theorem check_replaces_lastCheck_witness :
    checkCexTask.status = TaskStatus.running ∧
    (∀ t ∈ (handleTaskAction true 1 TaskAction.check
        (CallOutcome.resolvedCheck sampleResult) [checkCexTask]).final,
      t.id = 1 →
        t.status = TaskStatus.running ∧ t.lastCheck = some sampleResult) :=
  ⟨rfl,
   (check_replaces_lastCheck_with_transient_starting 1 sampleResult
     [checkCexTask]).2.1⟩

/-- C6 amended: for every prior task list (hence every prior status of the
task — Idle, Running or Stopped), a reset whose service call reports
success leaves the task's status Running; a reset whose call reports
failure, or throws, leaves it Idle, not Running. -/
theorem reset_final_status (taskId : Nat) (b : Bool) (tasks : List Task) :
    (∀ t ∈ (handleTaskAction true taskId TaskAction.reset
        (CallOutcome.resolvedBool b) tasks).final,
      t.id = taskId →
        t.status = (if b then TaskStatus.running else TaskStatus.idle)) ∧
    (∀ t ∈ (handleTaskAction true taskId TaskAction.reset
        CallOutcome.threw tasks).final,
      t.id = taskId → t.status = TaskStatus.idle) := by
  constructor
  · intro t ht hid
    have ht' : t ∈ applyOutcome taskId
        (if b then TaskStatus.running else TaskStatus.idle) none
        (setStarting taskId tasks) := ht
    exact applyOutcome_status_of_mem _ _ _ _ _ ht' hid
  · intro t ht hid
    have ht' : t ∈ applyOutcome taskId TaskStatus.idle none
        (setStarting taskId tasks) := ht
    exact applyOutcome_status_of_mem _ _ _ _ _ ht' hid

/-- Concrete stopped task used by the C6 counterexample. -/
def resetCexTask : Task :=
  { id := 1, node := NodeGroup.NODE1, title := "Network Configuration",
    instructions := "", status := TaskStatus.stopped, lastCheck := none }

/-- Witness for C6: a successful reset of the concrete stopped task 1 ends
with its status Running. -/
theorem reset_final_status_witness :
    resetCexTask.status = TaskStatus.stopped ∧
    (∀ t ∈ (handleTaskAction true 1 TaskAction.reset
        (CallOutcome.resolvedBool true) [resetCexTask]).final,
      t.id = 1 → t.status = TaskStatus.running) :=
  ⟨rfl, (reset_final_status 1 true [resetCexTask]).1⟩

/-- C6 counterexample: a reset of task 1 (prior status Stopped) whose
service call reports failure ends with the task's status Idle, which is
not Running — so a reset does not always end in Running. -/
theorem reset_not_always_running_cex :
    (handleTaskAction true 1 TaskAction.reset (CallOutcome.resolvedBool false)
        [resetCexTask]).final.map (fun t => t.status) = [TaskStatus.idle] ∧
    TaskStatus.idle ≠ TaskStatus.running := by
  decide

/-- Modelled from the spec: the Checker Engine's aggregation step of
`runChecks` — backend/task_checkers.py is not under src/. Per §4.3 the
engine executes the exercise's ordered probes, collecting one CheckDetail
per probe in declaration order; the aggregated status is PASS iff all
probes passed and FAIL otherwise; the summary reports
"k/n checks passed." for k passed probes out of n; the timestamp is
assigned at aggregation time. -/
def aggregateChecks (details : List CheckDetail) (timestamp : String) :
    CheckResult :=
  { status := if details.all (fun d => d.passed) then CheckStatus.PASS
      else CheckStatus.FAIL,
    summary := toString (details.filter (fun d => d.passed)).length ++ "/" ++
      toString details.length ++ " checks passed.",
    details := details,
    timestamp := timestamp }

/-- Two concrete probes, one passing and one failing, in declared order. -/
def sampleTwoProbes : List CheckDetail :=
  [{ name := "Hostname", passed := true, message := "Hostname is correct" },
   { name := "IP configuration", passed := false,
     message := "IP address not configured" }]

/-- C1: aggregation returns PASS iff all probes passed and FAIL otherwise,
with summary exactly "k/n checks passed." for k of n probes passed, the
details kept in probe order and the timestamp the one given at
aggregation; in particular two probes with one passing and one failing
yield FAIL, "1/2 checks passed." and exactly those 2 detail entries in
declared order. -/
theorem runChecks_aggregation (details : List CheckDetail) (ts : String) :
    ((aggregateChecks details ts).status = CheckStatus.PASS
      ↔ details.all (fun d => d.passed) = true) ∧
    ((aggregateChecks details ts).status = CheckStatus.FAIL
      ↔ details.all (fun d => d.passed) = false) ∧
    (aggregateChecks details ts).summary
      = toString (details.filter (fun d => d.passed)).length ++ "/" ++
        toString details.length ++ " checks passed." ∧
    (aggregateChecks details ts).details = details ∧
    (aggregateChecks details ts).timestamp = ts ∧
    (aggregateChecks sampleTwoProbes ts).status = CheckStatus.FAIL ∧
    (aggregateChecks sampleTwoProbes ts).summary = "1/2 checks passed." ∧
    (aggregateChecks sampleTwoProbes ts).details = sampleTwoProbes ∧
    sampleTwoProbes.length = 2 := by
  refine ⟨?_, ?_, rfl, rfl, rfl, rfl, rfl, rfl, rfl⟩
  · by_cases h : details.all (fun d => d.passed) <;> simp [aggregateChecks, h]
  · by_cases h : details.all (fun d => d.passed) <;> simp [aggregateChecks, h]

/-- Container name as documented in src/README.md (Docker Configuration,
and the troubleshooting section): containers are named "rhcsa-task-<id>",
e.g. "rhcsa-task-1", computed deterministically from the task id. The
backend that issues the docker calls is not under src/; the README is the
repository's statement of the convention. -/
def containerName (id : Nat) : String := "rhcsa-task-" ++ toString id

/-- The naming convention as the spec words it, "task-<id>", stated
separately so it can be compared against the repository's convention. -/
def specContainerName (id : Nat) : String := "task-" ++ toString id

/-- C4 counterexample: for exercise id 1 the repository's container name is
"rhcsa-task-1", which is not the spec's "task-1": the container associated
with an exercise is not named exactly `task-<id>`. -/
theorem container_name_differs_from_spec_cex :
    containerName 1 = "rhcsa-task-1" ∧ specContainerName 1 = "task-1" ∧
    containerName 1 ≠ specContainerName 1 := by
  decide

/-- C4 amended: for every exercise id the associated container is named
exactly "rhcsa-task-<id>", deterministically computed from the id; over
the 20 catalog exercises these names are pairwise distinct. -/
theorem container_names_deterministic (id : Nat) :
    containerName id = "rhcsa-task-" ++ toString id ∧
    INITIAL_TASKS.map (fun t => containerName t.id)
      = ["rhcsa-task-1", "rhcsa-task-2", "rhcsa-task-3", "rhcsa-task-4",
         "rhcsa-task-5", "rhcsa-task-6", "rhcsa-task-7", "rhcsa-task-8",
         "rhcsa-task-9", "rhcsa-task-10", "rhcsa-task-11", "rhcsa-task-12",
         "rhcsa-task-13", "rhcsa-task-14", "rhcsa-task-15", "rhcsa-task-16",
         "rhcsa-task-17", "rhcsa-task-18", "rhcsa-task-19", "rhcsa-task-20"] ∧
    (INITIAL_TASKS.map (fun t => containerName t.id)).Nodup := by
  exact ⟨rfl, by decide, by decide⟩

/-- HTTP method of a request issued by the frontend API client. -/
inductive HttpMethod where
  | GET
  | POST
deriving DecidableEq, Repr

/-- One HTTP request of frontend/services/dockerService.ts: its method and
its path (the API prefix constant there is the empty string — requests go
to the same origin). -/
structure ApiRequest where
  httpMethod : HttpMethod
  path : String
deriving DecidableEq, Repr

/-- `getDockerStatus` of dockerService.ts: GET /api/docker/status. -/
def getDockerStatusRequest : ApiRequest :=
  { httpMethod := HttpMethod.GET, path := "/api/docker/status" }

/-- `getTasks` of dockerService.ts: GET /api/tasks. -/
def getTasksRequest : ApiRequest :=
  { httpMethod := HttpMethod.GET, path := "/api/tasks" }

/-- `startContainer` of dockerService.ts: POST /api/task/<id>/start. -/
def startContainerRequest (taskId : Nat) : ApiRequest :=
  { httpMethod := HttpMethod.POST,
    path := "/api/task/" ++ toString taskId ++ "/start" }

/-- `stopContainer` of dockerService.ts: POST /api/task/<id>/stop. -/
def stopContainerRequest (taskId : Nat) : ApiRequest :=
  { httpMethod := HttpMethod.POST,
    path := "/api/task/" ++ toString taskId ++ "/stop" }

/-- `resetContainer` of dockerService.ts: POST /api/task/<id>/reset. -/
def resetContainerRequest (taskId : Nat) : ApiRequest :=
  { httpMethod := HttpMethod.POST,
    path := "/api/task/" ++ toString taskId ++ "/reset" }

/-- `checkTask` of dockerService.ts: POST /api/task/<id>/check. -/
def checkTaskRequest (taskId : Nat) : ApiRequest :=
  { httpMethod := HttpMethod.POST,
    path := "/api/task/" ++ toString taskId ++ "/check" }

/-- The endpoint surface the client actually talks to (C5 amended):
GET /api/docker/status, GET /api/tasks, and for some task id
POST /api/task/<id>/start, /stop, /reset or /check. -/
def actualApiSurface (r : ApiRequest) : Prop :=
  (r.httpMethod = HttpMethod.GET ∧ r.path = "/api/docker/status") ∨
  (r.httpMethod = HttpMethod.GET ∧ r.path = "/api/tasks") ∨
  (r.httpMethod = HttpMethod.POST ∧
    ∃ id : Nat, r.path = "/api/task/" ++ toString id ++ "/start" ∨
      r.path = "/api/task/" ++ toString id ++ "/stop" ∨
      r.path = "/api/task/" ++ toString id ++ "/reset" ∨
      r.path = "/api/task/" ++ toString id ++ "/check")

/-- C5 counterexample: the engine-status request the client issues goes to
/api/docker/status, not to the spec's /engine/status, and the concrete
start request for task 1 goes to /api/task/1/start, not to the spec's
/exercises/1/start. -/
theorem api_paths_differ_from_spec_cex :
    getDockerStatusRequest.path = "/api/docker/status" ∧
    getDockerStatusRequest.path ≠ "/engine/status" ∧
    getTasksRequest.path = "/api/tasks" ∧
    getTasksRequest.path ≠ "/exercises" ∧
    (startContainerRequest 1).path = "/api/task/1/start" ∧
    (startContainerRequest 1).path ≠ "/exercises/1/start" := by
  decide

/-- C5 amended: the HTTP interface consumed by the client consists of
GET /api/docker/status, GET /api/tasks, POST /api/task/<id>/start|stop|reset
and POST /api/task/<id>/check; every engine-status, task-list, lifecycle
and check request dockerService.ts issues goes to one of these paths. -/
theorem api_requests_in_surface (taskId : Nat) :
    actualApiSurface getDockerStatusRequest ∧
    actualApiSurface getTasksRequest ∧
    actualApiSurface (startContainerRequest taskId) ∧
    actualApiSurface (stopContainerRequest taskId) ∧
    actualApiSurface (resetContainerRequest taskId) ∧
    actualApiSurface (checkTaskRequest taskId) := by
  refine ⟨Or.inl ⟨rfl, rfl⟩, Or.inr (Or.inl ⟨rfl, rfl⟩),
    Or.inr (Or.inr ⟨rfl, taskId, Or.inl rfl⟩),
    Or.inr (Or.inr ⟨rfl, taskId, Or.inr (Or.inl rfl)⟩),
    Or.inr (Or.inr ⟨rfl, taskId, Or.inr (Or.inr (Or.inl rfl))⟩),
    Or.inr (Or.inr ⟨rfl, taskId, Or.inr (Or.inr (Or.inr rfl))⟩)⟩

/-- A message the Terminal component emits to the server over its socket
(Terminal.tsx): terminal:connect, terminal:input or terminal:resize. -/
inductive SocketEmit where
  | connectTerminal (taskId : Nat)
  | inputData (taskId : Nat) (data : String)
  | resizeTerminal (taskId : Nat) (cols rows : Nat)
deriving DecidableEq, Repr

/-- The connect/disconnect effect of Terminal.tsx (lines 88-135), run
whenever the active task or its status changes: when the active task is
absent or its status is not RUNNING it disconnects any existing socket,
records no connected task id and emits nothing — so no session connection
exists and no terminal:connect ever reaches the bridge; only when the
status is RUNNING does it open a socket, record the task id and emit
terminal:connect for it. Result: the recorded connected task id (none =
no socket) and the emitted messages. -/
def attachEffect (activeTask : Option Task) : Option Nat × List SocketEmit :=
  match activeTask with
  | some t =>
      if t.status = TaskStatus.running then
        (some t.id, [SocketEmit.connectTerminal t.id])
      else (none, [])
  | none => (none, [])

/-- The xterm onData handler of Terminal.tsx (lines 68-79): when the
current task is absent or not RUNNING it writes the inactivity error line
and emits nothing; when RUNNING and the socket is connected to that task
it emits terminal:input with the typed data; otherwise it writes the
connecting notice. Result: the emitted message, if any, and the lines
written locally to the terminal. -/
def onDataHandler (activeTask : Option Task) (socketConnected : Bool)
    (connectedTaskId : Option Nat) (data : String) :
    Option SocketEmit × List String :=
  match activeTask with
  | some t =>
      if t.status = TaskStatus.running then
        if socketConnected = true ∧ connectedTaskId = some t.id then
          (some (SocketEmit.inputData t.id data), [])
        else (none, ["\r\n\x1b[33mConnecting...\x1b[0m"])
      else
        (none, ["\r\n\x1b[31mTerminal inactive. Please START the task container.\x1b[0m"])
  | none =>
      (none, ["\r\n\x1b[31mTerminal inactive. Please START the task container.\x1b[0m"])

/-- C7: attaching a terminal to a task whose status is not Running creates
no session connection and sends nothing to the bridge (so no shell process
can be spawned), and typing produces only the local error line; only when
the status is Running does the component open a connection, emit
terminal:connect, and forward typed input over the connected socket. -/
theorem attach_requires_running (t : Task) (sc : Bool) (cid : Option Nat)
    (data : String) :
    (t.status ≠ TaskStatus.running →
      attachEffect (some t) = (none, []) ∧
      (onDataHandler (some t) sc cid data).1 = none ∧
      (onDataHandler (some t) sc cid data).2
        = ["\r\n\x1b[31mTerminal inactive. Please START the task container.\x1b[0m"]) ∧
    (t.status = TaskStatus.running →
      attachEffect (some t) = (some t.id, [SocketEmit.connectTerminal t.id]) ∧
      (sc = true → cid = some t.id →
        (onDataHandler (some t) sc cid data).1
          = some (SocketEmit.inputData t.id data))) := by
  constructor
  · intro h
    refine ⟨?_, ?_, ?_⟩ <;> simp [attachEffect, onDataHandler, h]
  · intro h
    refine ⟨by simp [attachEffect, h], ?_⟩
    intro hsc hcid
    simp [onDataHandler, h, hsc, hcid]

/-- Witness for C7: attaching to the concrete stopped task 1 creates no
connection, emits nothing to the bridge, and typing yields only the local
inactivity error line. -/
theorem attach_requires_running_witness :
    resetCexTask.status ≠ TaskStatus.running ∧
    (attachEffect (some resetCexTask) = (none, []) ∧
     (onDataHandler (some resetCexTask) false none "ls\n").1 = none ∧
     (onDataHandler (some resetCexTask) false none "ls\n").2
       = ["\r\n\x1b[31mTerminal inactive. Please START the task container.\x1b[0m"]) :=
  ⟨by decide,
   (attach_requires_running resetCexTask false none "ls\n").1 (by decide)⟩

/-- A write made to the xterm display. -/
inductive TermWrite where
  | write (s : String)
  | writeln (s : String)
deriving DecidableEq, Repr

/-- The terminal:output handler of Terminal.tsx (lines 109-113): writes the
payload data to the display only when the payload's task id equals the
connected session's task id and the xterm instance exists. -/
def onOutputEvent (sessionTaskId : Nat) (xtermExists : Bool)
    (payloadTaskId : Nat) (data : String) : List TermWrite :=
  if payloadTaskId = sessionTaskId ∧ xtermExists = true then
    [TermWrite.write data]
  else []

/-- The terminal:exit handler of Terminal.tsx (lines 115-120): writes the
exit-code line and a fresh prompt only for the connected session's id. -/
def onExitEvent (sessionTaskId : Nat) (xtermExists : Bool)
    (payloadTaskId : Nat) (code : Int) : List TermWrite :=
  if payloadTaskId = sessionTaskId ∧ xtermExists = true then
    [TermWrite.writeln ("\r\n\x1b[33m[Process exited with code " ++
        toString code ++ "]\x1b[0m"),
     TermWrite.write "[root@node1 ~]# "]
  else []

/-- The terminal:error handler of Terminal.tsx (lines 122-127): writes the
error line and a fresh prompt only for the connected session's id. -/
def onErrorEvent (sessionTaskId : Nat) (xtermExists : Bool)
    (payloadTaskId : Nat) (message : String) : List TermWrite :=
  if payloadTaskId = sessionTaskId ∧ xtermExists = true then
    [TermWrite.writeln ("\r\n\x1b[31m[Error] " ++ message ++ "\x1b[0m"),
     TermWrite.write "[root@node1 ~]# "]
  else []

/-- C10: an incoming output, exit or error event whose task id differs from
the connected session's task id is discarded: the three handlers write
nothing to the terminal display, so the displayed output depends only on
events carrying the session's own task id. -/
theorem foreign_events_discarded (sessionTaskId payloadTaskId : Nat)
    (xtermExists : Bool) (data message : String) (code : Int)
    (h : payloadTaskId ≠ sessionTaskId) :
    onOutputEvent sessionTaskId xtermExists payloadTaskId data = [] ∧
    onExitEvent sessionTaskId xtermExists payloadTaskId code = [] ∧
    onErrorEvent sessionTaskId xtermExists payloadTaskId message = [] := by
  refine ⟨?_, ?_, ?_⟩ <;> simp [onOutputEvent, onExitEvent, onErrorEvent, h]

/-- Witness for C10: a concrete event for task 2 arriving while the session
is connected to task 1 writes nothing for any of the three handlers. -/
theorem foreign_events_discarded_witness :
    (2 : Nat) ≠ 1 ∧
    (onOutputEvent 1 true 2 "payload data" = [] ∧
     onExitEvent 1 true 2 0 = [] ∧
     onErrorEvent 1 true 2 "Container not running" = []) :=
  ⟨by decide,
   foreign_events_discarded 1 2 true "payload data" "Container not running" 0
     (by decide)⟩

end RhcsaLab
